import Mathlib

/-!
# Smart parking management system — verification of the session-engine core

Shallow embedding of the per-session stream-processing core of the
smart-parking backend:

* `DynamicFrameSkipper` — `src/utils/dynamic_frame_skipper.py`
* `PlateStreamProcessor` — `src/models/license_plate/stream_processor.py`
* `ParkingStreamProcessor` — `src/models/parking_space_detector/stream_processor.py`
* `Registry` / `GateMonitor` — the WebSocket loops of `src/main.py`

Conventions of the embedding:

* Python floats (wall-clock timestamps, latencies, thresholds) are modelled
  as exact rationals `ℚ`; Python ints as `ℕ`/`ℤ`.
* `time.time()` is an input: functions that read the clock take the current
  time as an explicit argument.  The several clock reads inside one
  `process_frame` call are collapsed to `t_start` (loop entry) and
  `t_start + processing_time` (after the detection call).
* A Python dict is an association list in insertion order: assignment
  updates the first matching key in place, otherwise appends.
* The external detection pipeline is an oracle argument (`PipelineResult`).
  Fields the session logic merely copies through (`bbox`) are elided.
* Stateful methods become pure functions `State → ... → result × State`.
-/

namespace SmartParking

/-! ## Dynamic frame skipper (`src/utils/dynamic_frame_skipper.py`) -/

namespace DynamicFrameSkipper

structure State where
  skip_frames : ℕ
  min_skip : ℕ
  max_skip : ℕ
  target_frame_time : ℚ
  processing_times : List ℚ
  frame_count : ℕ
  last_adjustment_frame : ℕ
  adjustment_interval : ℕ
deriving DecidableEq

/-- `__init__`: `target_frame_time = 1.0 / target_fps`, empty latency deque
(`deque(maxlen=10)`), zeroed counters, `adjustment_interval = 20`. -/
def init (initial_skip min_skip max_skip : ℕ) (target_fps : ℚ) : State :=
  { skip_frames := initial_skip
    min_skip := min_skip
    max_skip := max_skip
    target_frame_time := 1 / target_fps
    processing_times := []
    frame_count := 0
    last_adjustment_frame := 0
    adjustment_interval := 20 }

/-- `deque(maxlen=10).append`: append on the right, dropping the oldest
element once the deque holds 10 entries. -/
def dequeAppend (q : List ℚ) (t : ℚ) : List ℚ :=
  if q.length < 10 then q ++ [t] else q.drop 1 ++ [t]

/-- `should_process_frame`: increment `frame_count`, then test
`frame_count % skip_frames == 0`. -/
def should_process_frame (s : State) : Bool × State :=
  let s := { s with frame_count := s.frame_count + 1 }
  (s.frame_count % s.skip_frames == 0, s)

/-- `_adjust_skip_rate`: with fewer than 5 samples do nothing; otherwise
compare the mean latency against `0.6` / `0.9` of the available time
`target_frame_time * skip_frames` and move `skip_frames` by `-1` (floored at
`min_skip`) or `+2` (capped at `max_skip`). -/
def adjust_skip_rate (s : State) : State :=
  if s.processing_times.length < 5 then s
  else
    let avg_time := s.processing_times.sum / (s.processing_times.length : ℚ)
    let available_time := s.target_frame_time * (s.skip_frames : ℚ)
    if avg_time < available_time * (6 / 10) then
      { s with skip_frames := max s.min_skip (s.skip_frames - 1) }
    else if avg_time > available_time * (9 / 10) then
      { s with skip_frames := min s.max_skip (s.skip_frames + 2) }
    else s

/-- `record_processing_time`: push the latency into the deque; when at least
`adjustment_interval` frames have passed since the last adjustment, run
`_adjust_skip_rate` and restamp `last_adjustment_frame = frame_count`. -/
def record_processing_time (s : State) (t : ℚ) : State :=
  let s1 := { s with processing_times := dequeAppend s.processing_times t }
  if s1.adjustment_interval ≤ s1.frame_count - s1.last_adjustment_frame then
    let s2 := adjust_skip_rate s1
    { s2 with last_adjustment_frame := s2.frame_count }
  else s1

/-- Instrumentation: does a call to `record_processing_time` in state `s`
actually recompute the skip interval (periodic condition fires *and* the ring
holds at least 5 samples, so `_adjust_skip_rate` does not early-return)? -/
def record_recomputes (s : State) (t : ℚ) : Bool :=
  let s1 := { s with processing_times := dequeAppend s.processing_times t }
  decide (s1.adjustment_interval ≤ s1.frame_count - s1.last_adjustment_frame)
    && decide (5 ≤ s1.processing_times.length)

/-- One raw frame arrival, as driven by the session engine: run the admission
check; when admitted, record the given latency.  Returns
`(recomputed, admitted)` flags next to the new state. -/
def raw_frame_step (s : State) (lat : ℚ) : (Bool × Bool) × State :=
  let pr := should_process_frame s
  if pr.1 then ((record_recomputes pr.2 lat, true), record_processing_time pr.2 lat)
  else ((false, false), pr.2)

/-- Feed a list of raw frames (one latency per frame, used only when the
frame is admitted) through the skipper, collecting the per-frame flags. -/
def run_raw : State → List ℚ → List (Bool × Bool) × State
  | s, [] => ([], s)
  | s, lat :: rest =>
    let st := raw_frame_step s lat
    let tl := run_raw st.2 rest
    (st.1 :: tl.1, tl.2)

end DynamicFrameSkipper

/-! ## License-plate stream processor
(`src/models/license_plate/stream_processor.py`) -/

namespace PlateStreamProcessor

/-- One plate record as returned by the external pipeline (the `bbox`
passthrough field is elided). -/
structure PlateDetection where
  plate_number : String
  raw_text : String
  ocr_confidence : ℚ
  detection_confidence : ℚ
deriving DecidableEq

/-- Result of `self.pipeline.process(frame_bytes)` — an oracle input of the
session engine. -/
inductive PipelineResult
  | failure (error : String)
  | success (plates : List PlateDetection)
deriving DecidableEq

/-- One entry of the `plates_with_status` list built by `process_frame`. -/
structure PlateWithStatus where
  plate_number : String
  raw_text : String
  confidence : ℚ
  detection_confidence : ℚ
  is_new : Bool
deriving DecidableEq

/-- The dict returned by `process_frame`: either the failure envelope
(`success: False`) or the success envelope (`success: True`). -/
inductive Envelope
  | failureEnv (error : String) (frame_number : ℕ) (timestamp : ℚ)
  | successEnv (timestamp : ℚ) (frame_number : ℕ) (processed_frame_number : ℕ)
      (plates : List PlateWithStatus) (plates_detected : ℕ) (new_plates : ℕ)
      (processing_time_ms : ℤ) (current_skip_rate : Option ℕ)
deriving DecidableEq

/-- `frame_number` field of either envelope shape. -/
def Envelope.frameNumber : Envelope → ℕ
  | .failureEnv _ n _ => n
  | .successEnv _ n _ _ _ _ _ _ => n

structure State where
  use_dynamic_skipping : Bool
  skip_frames : ℕ
  frame_skipper : DynamicFrameSkipper.State
  dedup_window : ℚ
  frame_count : ℕ
  processed_count : ℕ
  seen_plates : List (String × ℚ)
  max_tracked_plates : ℕ
deriving DecidableEq

/-- `__init__` with the configured mode: dynamic mode builds
`DynamicFrameSkipper(initial_skip, min_skip=1, max_skip=30, target_fps=10)`;
counters zeroed, empty dedup map, `max_tracked_plates = 100`. -/
def init (skip_frames : ℕ) (dedup_window : ℚ) (use_dynamic : Bool) : State :=
  { use_dynamic_skipping := use_dynamic
    skip_frames := skip_frames
    frame_skipper := DynamicFrameSkipper.init skip_frames 1 30 10
    dedup_window := dedup_window
    frame_count := 0
    processed_count := 0
    seen_plates := []
    max_tracked_plates := 100 }

/-- `self.seen_plates[plate]` lookup in the dict. -/
def lookup (m : List (String × ℚ)) (k : String) : Option ℚ :=
  (m.find? (fun p => p.1 == k)).map (fun p => p.2)

/-- `self.seen_plates[plate] = t`: Python dict assignment — update the first
matching key in place, otherwise append. -/
def setStamp : List (String × ℚ) → String → ℚ → List (String × ℚ)
  | [], k, t => [(k, t)]
  | p :: rest, k, t => if p.1 == k then (k, t) :: rest else p :: setStamp rest k t

/-- `is_duplicate`: if the plate is stored and `now - last_seen <
dedup_window`, return `True` (leaving the map untouched); otherwise stamp
`seen_plates[plate] = now` and return `False`. -/
def is_duplicate (s : State) (plate_number : String) (current_time : ℚ) :
    Bool × State :=
  match lookup s.seen_plates plate_number with
  | some last_seen =>
    if current_time - last_seen < s.dedup_window then (true, s)
    else (false, { s with seen_plates := setStamp s.seen_plates plate_number current_time })
  | none => (false, { s with seen_plates := setStamp s.seen_plates plate_number current_time })

/-- Sort key of `sorted(self.seen_plates.items(), key=lambda x: x[1],
reverse=True)`: descending timestamps. -/
def stampGE (a b : String × ℚ) : Prop := b.2 ≤ a.2

instance : DecidableRel stampGE := fun a b => inferInstanceAs (Decidable (b.2 ≤ a.2))

instance : IsTotal (String × ℚ) stampGE := ⟨fun a b => le_total b.2 a.2⟩

instance : IsTrans (String × ℚ) stampGE := ⟨fun _ _ _ hab hbc => le_trans hbc hab⟩

/-- `cleanup_old_plates`: drop every entry with
`current_time - last_seen > dedup_window * 2`; if more than
`max_tracked_plates` entries remain, keep only the `max_tracked_plates`
most recent ones (stable sort by timestamp, descending). -/
def cleanup_old_plates (s : State) (current_time : ℚ) : State :=
  let kept := s.seen_plates.filter (fun p => decide (current_time - p.2 ≤ s.dedup_window * 2))
  if s.max_tracked_plates < kept.length then
    { s with seen_plates := (List.insertionSort stampGE kept).take s.max_tracked_plates }
  else { s with seen_plates := kept }

/-- The `for plate in result.get("plates", [])` loop: mark each plate new or
duplicate via `is_duplicate` (threading the dedup-map side effects left to
right) and build `plates_with_status`. -/
def markPlates : State → List PlateDetection → ℚ → List PlateWithStatus × State
  | s, [], _ => ([], s)
  | s, p :: rest, now =>
    let dup := is_duplicate s p.plate_number now
    let entry : PlateWithStatus :=
      { plate_number := p.plate_number
        raw_text := p.raw_text
        confidence := p.ocr_confidence
        detection_confidence := p.detection_confidence
        is_new := !dup.1 }
    let tl := markPlates dup.2 rest now
    (entry :: tl.1, tl.2)

/-- `should_process_frame` of the session: delegate to the skipper in dynamic
mode, else test the session's own `frame_count % skip_frames == 0`. -/
def should_process_frame (s : State) : Bool × State :=
  if s.use_dynamic_skipping then
    let pr := DynamicFrameSkipper.should_process_frame s.frame_skipper
    (pr.1, { s with frame_skipper := pr.2 })
  else (s.frame_count % s.skip_frames == 0, s)

/-- Python `int()` truncation toward zero of a rational. -/
def pyInt (q : ℚ) : ℤ := if 0 ≤ q then ⌊q⌋ else -⌊-q⌋

/-- `process_frame`: sync the frame counter (dynamic mode copies the
skipper's counter *before* the admission check increments it; fixed mode
increments locally), run admission, and on an admitted frame consume the
pipeline result oracle: failure ⟶ failure envelope; success ⟶ dedup-mark the
plates, run the every-50-frames cleanup, bump `processed_count` and build the
success envelope.  `t_start` is the wall clock on entry, `processing_time`
the measured latency of the detection call. -/
def process_frame (s : State) (result : PipelineResult)
    (t_start processing_time : ℚ) : Option Envelope × State :=
  let s1 :=
    if s.use_dynamic_skipping then { s with frame_count := s.frame_skipper.frame_count }
    else { s with frame_count := s.frame_count + 1 }
  let pr := should_process_frame s1
  if pr.1 then
    let s2 :=
      if pr.2.use_dynamic_skipping then
        { pr.2 with frame_skipper :=
            DynamicFrameSkipper.record_processing_time pr.2.frame_skipper processing_time }
      else pr.2
    let now := t_start + processing_time
    match result with
    | .failure err => (some (.failureEnv err s2.frame_count now), s2)
    | .success plates =>
      let mk := markPlates s2 plates now
      let s3 := if mk.2.frame_count % 50 == 0 then cleanup_old_plates mk.2 now else mk.2
      let s4 := { s3 with processed_count := s3.processed_count + 1 }
      (some (.successEnv now s4.frame_count s4.processed_count mk.1 mk.1.length
          (mk.1.countP (fun p => p.is_new)) (pyInt (processing_time * 1000))
          (if s4.use_dynamic_skipping then some s4.frame_skipper.skip_frames else none)),
        s4)
  else (none, pr.2)

/-- Drive `process_frame` over a list of inputs (pipeline-result oracle,
clock at entry, measured latency), collecting the per-call outputs. -/
def run_plate : State → List (PipelineResult × ℚ × ℚ) → List (Option Envelope) × State
  | s, [] => ([], s)
  | s, (r, t0, dt) :: rest =>
    let pr := process_frame s r t0 dt
    let tl := run_plate pr.2 rest
    (pr.1 :: tl.1, tl.2)

end PlateStreamProcessor

/-! ## Parking-lot stream processor
(`src/models/parking_space_detector/stream_processor.py`) -/

namespace ParkingStreamProcessor

/-- The `change_info` dict emitted by `detect_state_change`. -/
structure ChangeInfo where
  previous : ℤ
  current : ℤ
  change : ℤ
  direction : String
deriving DecidableEq

/-- `detect_state_change`: `(emitted event, new last_occupancy)`.  A `none`
baseline is seeded without an event; otherwise an event is emitted iff
`abs(change) >= 1`, and only then is the baseline updated. -/
def detect_state_change (last_occupancy : Option ℤ) (current_occupancy : ℤ) :
    Option ChangeInfo × Option ℤ :=
  match last_occupancy with
  | none => (none, some current_occupancy)
  | some prev =>
    let change := current_occupancy - prev
    if 1 ≤ |change| then
      (some { previous := prev
              current := current_occupancy
              change := change
              direction := if 0 < change then "increased" else "decreased" },
        some current_occupancy)
    else (none, some prev)

end ParkingStreamProcessor

/-! ## Connection registry and WebRTC signaling broadcast (`src/main.py`)

The `ConnectionManager` module itself is not under `src/`; what is in
`src/main.py` is the broadcast loop of `webrtc_signaling_endpoint`
(lines 119–122): iterate `manager.active_connections`, and `send_text` the
raw payload to every connection other than the sender, with **no** exception
handling inside the loop — a failing send propagates out of the loop (and out
of the `while`, into the endpoint's `except`). -/

namespace Registry

/-- A registered connection: its id and whether a `send_text` to it
succeeds (`alive = false` models an already-disconnected peer whose send
raises). -/
structure Conn where
  cid : ℕ
  alive : Bool
deriving DecidableEq

/-- The broadcast loop: returns the deliveries actually made (in order) and
whether the loop ran to completion (`false` = a send raised and aborted it). -/
def broadcast_except : List Conn → ℕ → String → List (ℕ × String) × Bool
  | [], _, _ => ([], true)
  | c :: rest, sender, payload =>
    if c.cid = sender then broadcast_except rest sender payload
    else if c.alive then
      let tl := broadcast_except rest sender payload
      ((c.cid, payload) :: tl.1, tl.2)
    else ([], false)

end Registry

/-! ## Gate-monitor protocol dispatch (`src/main.py`, `gate_monitor_endpoint`)

Text-message handling of the receive loop, lines 164–206: parse JSON
(`malformed` models a `json.JSONDecodeError`), intercept `reset`/`stats`
control messages, extract the `data` field — and `continue` silently when it
is absent. -/

namespace GateMonitor

/-- The parsed shape of a JSON text message: the `type` and `data` fields
the dispatch code reads (either may be absent). -/
structure JsonMsg where
  type_field : Option String
  data_field : Option String
deriving DecidableEq

/-- A received text frame: either unparseable JSON or a parsed object. -/
inductive ReceivedText
  | malformed
  | parsed (m : JsonMsg)
deriving DecidableEq

/-- What one loop iteration does with a text message.  Every constructor
continues the receive loop (no branch closes the connection). -/
inductive GateAction
  | sendErrorContinue (error : String)
  | sendResetAckContinue
  | sendStatsContinue
  | processFrameData (d : String)
  | silentContinue
deriving DecidableEq

/-- Dispatch on a text message, mirroring the source order: JSON decode
error ⟶ error reply; `type == "reset"` / `type == "stats"` ⟶ control ack;
`"data" in message` ⟶ decode and process the frame; otherwise ⟶ bare
`continue` with no reply. -/
def handle_text : ReceivedText → GateAction
  | .malformed => .sendErrorContinue "Invalid JSON format"
  | .parsed m =>
    if m.type_field = some "reset" then .sendResetAckContinue
    else if m.type_field = some "stats" then .sendStatsContinue
    else
      match m.data_field with
      | some d => .processFrameData d
      | none => .silentContinue

/-- Does the action send a `{"type": "error", ...}` reply? -/
def sendsErrorReply : GateAction → Bool
  | .sendErrorContinue _ => true
  | _ => false

/-- Does the receive loop continue after the action (connection kept open)?
Every branch of the text handler either `continue`s or falls through to
frame processing, so this is `true` for every action. -/
def keepsConnectionOpen : GateAction → Bool
  | _ => true

end GateMonitor

end SmartParking

/-! # Helper lemmas -/

namespace SmartParking

/-- `_adjust_skip_rate` only ever rewrites `skip_frames`. -/
theorem adjust_skip_rate_fields (s : DynamicFrameSkipper.State) :
    DynamicFrameSkipper.adjust_skip_rate s =
      { s with skip_frames := (DynamicFrameSkipper.adjust_skip_rate s).skip_frames } := by
  simp only [DynamicFrameSkipper.adjust_skip_rate]
  split
  · rfl
  · split
    · rfl
    · split <;> rfl

/-- `record_processing_time` never changes the raw-frame counter. -/
theorem record_processing_time_frame_count (s : DynamicFrameSkipper.State) (t : ℚ) :
    (DynamicFrameSkipper.record_processing_time s t).frame_count = s.frame_count := by
  simp only [DynamicFrameSkipper.record_processing_time]
  split
  · rw [adjust_skip_rate_fields]
  · rfl

/-- A freshly written stamp is read back by `lookup`. -/
theorem lookup_setStamp_self (m : List (String × ℚ)) (k : String) (t : ℚ) :
    PlateStreamProcessor.lookup (PlateStreamProcessor.setStamp m k t) k = some t := by
  induction m with
  | nil => simp [PlateStreamProcessor.setStamp, PlateStreamProcessor.lookup, List.find?]
  | cons p rest ih =>
    by_cases h : p.1 == k
    · simp [PlateStreamProcessor.setStamp, PlateStreamProcessor.lookup, List.find?, h]
    · simpa [PlateStreamProcessor.setStamp, PlateStreamProcessor.lookup, List.find?, h] using ih

/-- `is_duplicate` only ever rewrites the dedup map. -/
theorem is_duplicate_fields (s : PlateStreamProcessor.State) (X : String) (now : ℚ) :
    (PlateStreamProcessor.is_duplicate s X now).2 =
      { s with seen_plates := (PlateStreamProcessor.is_duplicate s X now).2.seen_plates } := by
  unfold PlateStreamProcessor.is_duplicate
  split <;> (try split) <;> rfl

/-- `markPlates` never changes the session's frame counter. -/
theorem markPlates_frame_count (l : List PlateStreamProcessor.PlateDetection)
    (s : PlateStreamProcessor.State) (now : ℚ) :
    (PlateStreamProcessor.markPlates s l now).2.frame_count = s.frame_count := by
  induction l generalizing s with
  | nil => rfl
  | cons p rest ih =>
    show (PlateStreamProcessor.markPlates
        (PlateStreamProcessor.is_duplicate s p.plate_number now).2 rest now).2.frame_count = _
    rw [ih, is_duplicate_fields]

/-- `markPlates` never changes the embedded skipper state. -/
theorem markPlates_frame_skipper (l : List PlateStreamProcessor.PlateDetection)
    (s : PlateStreamProcessor.State) (now : ℚ) :
    (PlateStreamProcessor.markPlates s l now).2.frame_skipper = s.frame_skipper := by
  induction l generalizing s with
  | nil => rfl
  | cons p rest ih =>
    show (PlateStreamProcessor.markPlates
        (PlateStreamProcessor.is_duplicate s p.plate_number now).2 rest now).2.frame_skipper = _
    rw [ih, is_duplicate_fields]

/-- `cleanup_old_plates` only ever rewrites the dedup map. -/
theorem cleanup_old_plates_fields (s : PlateStreamProcessor.State) (now : ℚ) :
    PlateStreamProcessor.cleanup_old_plates s now =
      { s with seen_plates := (PlateStreamProcessor.cleanup_old_plates s now).seen_plates } := by
  simp only [PlateStreamProcessor.cleanup_old_plates]
  split <;> rfl

end SmartParking
/-! # Claim theorems -/

namespace SmartParking

/-- **C3** (confirmed).  Whenever `_adjust_skip_rate` runs with at least 5
latency samples in the ring — writing `avg` for the mean of the ring and
`available` for `target_frame_time * skip_frames` (nonnegative, since
`target_frame_time = 1/target_fps` is) — if `avg < 0.6 * available` the skip
interval becomes `max min_skip (skip_frames - 1)` (decrease by exactly 1,
floored at `min_skip`); if `avg > 0.9 * available` it becomes
`min max_skip (skip_frames + 2)` (increase by exactly 2, capped at
`max_skip`); otherwise the state is unchanged.  With fewer than 5 samples a
recompute never changes the state. -/
theorem adjust_skip_rate_spec (s : DynamicFrameSkipper.State)
    (htf : 0 ≤ s.target_frame_time) :
    (s.processing_times.length < 5 → DynamicFrameSkipper.adjust_skip_rate s = s)
    ∧ (5 ≤ s.processing_times.length →
      (s.processing_times.sum / (s.processing_times.length : ℚ)
          < s.target_frame_time * (s.skip_frames : ℚ) * (6 / 10) →
        (DynamicFrameSkipper.adjust_skip_rate s).skip_frames
          = max s.min_skip (s.skip_frames - 1))
      ∧ (s.target_frame_time * (s.skip_frames : ℚ) * (9 / 10)
          < s.processing_times.sum / (s.processing_times.length : ℚ) →
        (DynamicFrameSkipper.adjust_skip_rate s).skip_frames
          = min s.max_skip (s.skip_frames + 2))
      ∧ (s.target_frame_time * (s.skip_frames : ℚ) * (6 / 10)
            ≤ s.processing_times.sum / (s.processing_times.length : ℚ) →
          s.processing_times.sum / (s.processing_times.length : ℚ)
            ≤ s.target_frame_time * (s.skip_frames : ℚ) * (9 / 10) →
        DynamicFrameSkipper.adjust_skip_rate s = s)) := by
  have havail : 0 ≤ s.target_frame_time * (s.skip_frames : ℚ) :=
    mul_nonneg htf (Nat.cast_nonneg _)
  constructor
  · intro h
    simp only [DynamicFrameSkipper.adjust_skip_rate]
    rw [if_pos h]
  · intro h5
    have hnot : ¬ s.processing_times.length < 5 := not_lt.mpr h5
    refine ⟨fun hfast => ?_, fun hslow => ?_, fun hlo hhi => ?_⟩
    · simp only [DynamicFrameSkipper.adjust_skip_rate]
      rw [if_neg hnot, if_pos hfast]
    · have hnotfast : ¬ s.processing_times.sum / (s.processing_times.length : ℚ)
          < s.target_frame_time * (s.skip_frames : ℚ) * (6 / 10) := by
        have : s.target_frame_time * (s.skip_frames : ℚ) * (6 / 10)
            ≤ s.target_frame_time * (s.skip_frames : ℚ) * (9 / 10) := by nlinarith
        linarith
      simp only [DynamicFrameSkipper.adjust_skip_rate, gt_iff_lt]
      rw [if_neg hnot, if_neg hnotfast, if_pos hslow]
    · simp only [DynamicFrameSkipper.adjust_skip_rate, gt_iff_lt]
      rw [if_neg hnot, if_neg (not_lt.mpr hlo), if_neg (not_lt.mpr hhi)]

def w3S : DynamicFrameSkipper.State :=
  { skip_frames := 5, min_skip := 1, max_skip := 30, target_frame_time := 1 / 10,
    processing_times := [1, 1, 1, 1, 1], frame_count := 0,
    last_adjustment_frame := 0, adjustment_interval := 20 }

/-- Witness for `adjust_skip_rate_spec`: a sustained latency of 1 second over
5 samples against `available = 0.5` lands in the slow branch and moves the
skip interval from 5 to `min 30 (5 + 2) = 7`. -/
theorem adjust_skip_rate_spec_witness :
    (DynamicFrameSkipper.adjust_skip_rate w3S).skip_frames
      = min w3S.max_skip (w3S.skip_frames + 2) :=
  ((adjust_skip_rate_spec w3S
      (by with_unfolding_all exact of_decide_eq_true rfl)).2
    (by with_unfolding_all exact of_decide_eq_true rfl)).2.1
    (by with_unfolding_all exact of_decide_eq_true rfl)

/-- **C5** (confirmed).  The scalar state-change detector never emits on its
first observation (it only seeds the baseline); a subsequent observation
emits `{previous, current, change, direction}` iff the absolute difference
from the stored baseline is at least 1, updating the baseline exactly when it
emits; in particular, 5 then 5 never emits, while 5 then 6 and 5 then 4 each
emit with the correct magnitude and direction. -/
theorem detect_state_change_spec :
    (∀ cur : ℤ, ParkingStreamProcessor.detect_state_change none cur = (none, some cur))
    ∧ (∀ prev cur : ℤ, 1 ≤ |cur - prev| →
        ParkingStreamProcessor.detect_state_change (some prev) cur =
          (some { previous := prev, current := cur, change := cur - prev,
                  direction := if 0 < cur - prev then "increased" else "decreased" },
            some cur))
    ∧ (∀ prev cur : ℤ, |cur - prev| < 1 →
        ParkingStreamProcessor.detect_state_change (some prev) cur = (none, some prev))
    ∧ ParkingStreamProcessor.detect_state_change (some 5) 5 = (none, some 5)
    ∧ ParkingStreamProcessor.detect_state_change (some 5) 6 =
        (some { previous := 5, current := 6, change := 1, direction := "increased" }, some 6)
    ∧ ParkingStreamProcessor.detect_state_change (some 5) 4 =
        (some { previous := 5, current := 4, change := -1, direction := "decreased" }, some 4) := by
  refine ⟨fun cur => rfl, fun prev cur h => ?_, fun prev cur h => ?_,
    by with_unfolding_all exact of_decide_eq_true rfl,
    by with_unfolding_all exact of_decide_eq_true rfl,
    by with_unfolding_all exact of_decide_eq_true rfl⟩
  · simp only [ParkingStreamProcessor.detect_state_change]
    rw [if_pos h]
  · simp only [ParkingStreamProcessor.detect_state_change]
    rw [if_neg (not_le.mpr h)]

/-- Witness for `detect_state_change_spec`: baseline 5, observation 6 emits a
`+1` / `"increased"` event and moves the baseline to 6. -/
theorem detect_state_change_spec_witness :
    ParkingStreamProcessor.detect_state_change (some 5) 6 =
      (some { previous := 5, current := 6, change := 6 - 5,
              direction := if 0 < (6:ℤ) - 5 then "increased" else "decreased" }, some 6) :=
  detect_state_change_spec.2.1 5 6 (by with_unfolding_all exact of_decide_eq_true rfl)

end SmartParking
namespace SmartParking

/-- **C4** (amended).  Characterization of the signaling broadcast loop of
`webrtc_signaling_endpoint`: the payload is delivered verbatim, in
registration order, to the non-sender connections *up to the first one whose
send fails*; a failed send raises out of the loop, so every connection after
it receives nothing, and the loop completes without an exception iff every
non-sender connection is alive.  (In particular, all `N - 1` others receive
the payload only when every one of them is still alive.) -/
theorem broadcast_except_spec (conns : List Registry.Conn) (sender : ℕ) (payload : String) :
    Registry.broadcast_except conns sender payload =
      (((conns.filter (fun c => decide (c.cid ≠ sender))).takeWhile (fun c => c.alive)).map
          (fun c => (c.cid, payload)),
        (conns.filter (fun c => decide (c.cid ≠ sender))).all (fun c => c.alive)) := by
  induction conns with
  | nil => rfl
  | cons c rest ih =>
    by_cases hs : c.cid = sender
    · simp [Registry.broadcast_except, hs, ih]
    · by_cases ha : c.alive
      · simp [Registry.broadcast_except, hs, ha, ih]
      · simp [Registry.broadcast_except, hs, ha]

def c4Conns : List Registry.Conn := [⟨0, true⟩, ⟨1, true⟩, ⟨2, false⟩, ⟨3, true⟩]

/-- **C4** counterexample.  Four registered connections, sender `0`,
connection `2` already disconnected: the broadcast delivers only to
connection `1` — one recipient, not `N - 1 = 3` — the still-alive connection
`3` receives nothing, and the loop aborts with an exception, refuting "a
failure to deliver to one connection never aborts delivery to the remaining
ones". -/
theorem broadcast_except_abort_counterexample :
    (Registry.broadcast_except c4Conns 0 "offer").1 = [(1, "offer")]
    ∧ (Registry.broadcast_except c4Conns 0 "offer").1.length ≠ c4Conns.length - 1
    ∧ (3, "offer") ∉ (Registry.broadcast_except c4Conns 0 "offer").1
    ∧ (Registry.broadcast_except c4Conns 0 "offer").2 = false := by
  with_unfolding_all exact of_decide_eq_true rfl

/-- **C9** (amended).  For a text message on a monitor connection: malformed
JSON yields the structured error reply `"Invalid JSON format"` and the
receive loop continues; but valid JSON that is neither a control message nor
contains a `"data"` field is *silently ignored* — the loop continues without
any reply being sent. -/
theorem handle_text_spec :
    (GateMonitor.handle_text .malformed = .sendErrorContinue "Invalid JSON format"
      ∧ GateMonitor.sendsErrorReply (GateMonitor.handle_text .malformed) = true
      ∧ GateMonitor.keepsConnectionOpen (GateMonitor.handle_text .malformed) = true)
    ∧ (∀ m : GateMonitor.JsonMsg, m.type_field ≠ some "reset" → m.type_field ≠ some "stats" →
        m.data_field = none →
        GateMonitor.handle_text (.parsed m) = .silentContinue
        ∧ GateMonitor.sendsErrorReply (GateMonitor.handle_text (.parsed m)) = false
        ∧ GateMonitor.keepsConnectionOpen (GateMonitor.handle_text (.parsed m)) = true) := by
  refine ⟨⟨rfl, rfl, rfl⟩, fun m h1 h2 h3 => ?_⟩
  have hact : GateMonitor.handle_text (.parsed m) = .silentContinue := by
    simp only [GateMonitor.handle_text]
    rw [if_neg h1, if_neg h2, h3]
  exact ⟨hact, by rw [hact]; rfl, rfl⟩

/-- **C9** counterexample.  The valid JSON object `{}` (no `type`, no `data`)
is not a control message and has no data field, yet the server sends *no*
error reply for it — refuting "the server sends a structured error reply"
for valid JSON lacking a data field. -/
theorem handle_text_missing_data_counterexample :
    GateMonitor.handle_text (.parsed { type_field := none, data_field := none })
        = .silentContinue
    ∧ GateMonitor.sendsErrorReply
        (GateMonitor.handle_text (.parsed { type_field := none, data_field := none }))
      = false := by
  with_unfolding_all exact of_decide_eq_true rfl

/-- Witness for `handle_text_spec`: the non-control message
`{"type": "bogus"}` without a data field is silently ignored. -/
theorem handle_text_spec_witness :
    GateMonitor.handle_text
        (.parsed { type_field := some "bogus", data_field := none })
      = .silentContinue :=
  (handle_text_spec.2 { type_field := some "bogus", data_field := none }
    (by with_unfolding_all exact of_decide_eq_true rfl)
    (by with_unfolding_all exact of_decide_eq_true rfl) rfl).1

end SmartParking
namespace SmartParking

/-- Evaluation of `is_duplicate` when the identity has a stored stamp. -/
theorem is_duplicate_eval_some (s : PlateStreamProcessor.State) (X : String) (t now : ℚ)
    (h : PlateStreamProcessor.lookup s.seen_plates X = some t) :
    PlateStreamProcessor.is_duplicate s X now =
      if now - t < s.dedup_window then (true, s)
      else (false, { s with
        seen_plates := PlateStreamProcessor.setStamp s.seen_plates X now }) := by
  unfold PlateStreamProcessor.is_duplicate
  rw [h]

/-- Evaluation of `is_duplicate` when the identity is not stored. -/
theorem is_duplicate_eval_none (s : PlateStreamProcessor.State) (X : String) (now : ℚ)
    (h : PlateStreamProcessor.lookup s.seen_plates X = none) :
    PlateStreamProcessor.is_duplicate s X now =
      (false, { s with
        seen_plates := PlateStreamProcessor.setStamp s.seen_plates X now }) := by
  unfold PlateStreamProcessor.is_duplicate
  rw [h]

/-- **C1** (amended).  `is_duplicate(X)` returns true iff `X`'s stored
`last_seen` stamp is within `window` seconds of the current time; it restamps
`last_seen` to the current time *exactly when it returns false* — a true
result leaves the state (in particular the stamp) unchanged, so the window
does not restart on a duplicate hit but runs from the most recent *new*
sighting: after a check of `X` at time `now` that returns false, a check at
`now + d` with no intervening sighting returns true iff `d < window` (hence
false at `now + window` and later, e.g. at `now + 2*window - 1` for
`window ≥ 1`). -/
theorem is_duplicate_spec (s : PlateStreamProcessor.State) (X : String) (now : ℚ) :
    ((PlateStreamProcessor.is_duplicate s X now).1 = true ↔
      ∃ t, PlateStreamProcessor.lookup s.seen_plates X = some t ∧ now - t < s.dedup_window)
    ∧ ((PlateStreamProcessor.is_duplicate s X now).1 = true →
        (PlateStreamProcessor.is_duplicate s X now).2 = s)
    ∧ ((PlateStreamProcessor.is_duplicate s X now).1 = false →
        PlateStreamProcessor.lookup
          (PlateStreamProcessor.is_duplicate s X now).2.seen_plates X = some now)
    ∧ (∀ d : ℚ, (PlateStreamProcessor.is_duplicate s X now).1 = false →
        d < s.dedup_window →
        (PlateStreamProcessor.is_duplicate
          (PlateStreamProcessor.is_duplicate s X now).2 X (now + d)).1 = true)
    ∧ (∀ d : ℚ, (PlateStreamProcessor.is_duplicate s X now).1 = false →
        s.dedup_window ≤ d →
        (PlateStreamProcessor.is_duplicate
          (PlateStreamProcessor.is_duplicate s X now).2 X (now + d)).1 = false) := by
  have hsecond : ∀ d : ℚ,
      (PlateStreamProcessor.is_duplicate s X now).1 = false →
      (PlateStreamProcessor.is_duplicate
          (PlateStreamProcessor.is_duplicate s X now).2 X (now + d)).1
        = decide (d < s.dedup_window) := by
    intro d hfalse
    have hlk : PlateStreamProcessor.lookup
        (PlateStreamProcessor.is_duplicate s X now).2.seen_plates X = some now := by
      rcases hl : PlateStreamProcessor.lookup s.seen_plates X with _ | t
      · rw [is_duplicate_eval_none s X now hl]
        exact lookup_setStamp_self _ X now
      · by_cases hc : now - t < s.dedup_window
        · rw [is_duplicate_eval_some s X t now hl, if_pos hc] at hfalse
          cases hfalse
        · rw [is_duplicate_eval_some s X t now hl, if_neg hc]
          exact lookup_setStamp_self _ X now
    have hwin : (PlateStreamProcessor.is_duplicate s X now).2.dedup_window
        = s.dedup_window := by
      rw [is_duplicate_fields]
    rw [is_duplicate_eval_some _ X now (now + d) hlk, hwin, add_sub_cancel_left]
    by_cases hd : d < s.dedup_window
    · rw [if_pos hd]
      simp [hd]
    · rw [if_neg hd]
      simp [hd]
  refine ⟨?_, ?_, ?_, fun d hf hd => ?_, fun d hf hd => ?_⟩
  · constructor
    · intro htrue
      rcases hl : PlateStreamProcessor.lookup s.seen_plates X with _ | t
      · rw [is_duplicate_eval_none s X now hl] at htrue
        cases htrue
      · by_cases hc : now - t < s.dedup_window
        · exact ⟨t, rfl, hc⟩
        · rw [is_duplicate_eval_some s X t now hl, if_neg hc] at htrue
          cases htrue
    · rintro ⟨t, hl, hc⟩
      rw [is_duplicate_eval_some s X t now hl, if_pos hc]
  · intro htrue
    rcases hl : PlateStreamProcessor.lookup s.seen_plates X with _ | t
    · rw [is_duplicate_eval_none s X now hl] at htrue
      cases htrue
    · by_cases hc : now - t < s.dedup_window
      · rw [is_duplicate_eval_some s X t now hl, if_pos hc]
      · rw [is_duplicate_eval_some s X t now hl, if_neg hc] at htrue
        cases htrue
  · intro hfalse
    rcases hl : PlateStreamProcessor.lookup s.seen_plates X with _ | t
    · rw [is_duplicate_eval_none s X now hl]
      exact lookup_setStamp_self _ X now
    · by_cases hc : now - t < s.dedup_window
      · rw [is_duplicate_eval_some s X t now hl, if_pos hc] at hfalse
        cases hfalse
      · rw [is_duplicate_eval_some s X t now hl, if_neg hc]
        exact lookup_setStamp_self _ X now
  · rw [hsecond d hf]
    simp [hd]
  · rw [hsecond d hf]
    simp [not_lt.mpr hd]

def c1S : PlateStreamProcessor.State :=
  { PlateStreamProcessor.init 5 10 false with seen_plates := [("X", 0)] }

/-- **C1** counterexample.  Window `w = 10`, identity `X` stamped at time 0.
A check at `t1 = 5` returns true but does *not* restamp (the map still holds
`("X", 0)`), and the claimed second check at `t1 + w - 1 = 14` returns false
— refuting both "it always restamps X's last_seen ... regardless of whether
the result is true or false" and "a second check at t1+w-1 with no
intervening sighting also returns true". -/
theorem is_duplicate_restamp_counterexample :
    (PlateStreamProcessor.is_duplicate c1S "X" 5).1 = true
    ∧ (PlateStreamProcessor.is_duplicate c1S "X" 5).2.seen_plates = [("X", 0)]
    ∧ (PlateStreamProcessor.is_duplicate
        (PlateStreamProcessor.is_duplicate c1S "X" 5).2 "X" (5 + 10 - 1)).1 = false := by
  with_unfolding_all exact of_decide_eq_true rfl

def w1S : PlateStreamProcessor.State :=
  { PlateStreamProcessor.init 5 10 false with seen_plates := [("Y", 0)] }

/-- Witness for `is_duplicate_spec`: `Y` stamped at 0, window 10 — a check at
time 3 is a duplicate hit and leaves the state unchanged. -/
theorem is_duplicate_spec_witness :
    (PlateStreamProcessor.is_duplicate w1S "Y" 3).1 = true
    ∧ (PlateStreamProcessor.is_duplicate w1S "Y" 3).2 = w1S :=
  ⟨(is_duplicate_spec w1S "Y" 3).1.mpr
      ⟨0, by with_unfolding_all exact of_decide_eq_true rfl,
        by with_unfolding_all exact of_decide_eq_true rfl⟩,
    (is_duplicate_spec w1S "Y" 3).2.1
      ((is_duplicate_spec w1S "Y" 3).1.mpr
        ⟨0, by with_unfolding_all exact of_decide_eq_true rfl,
          by with_unfolding_all exact of_decide_eq_true rfl⟩)⟩

end SmartParking
namespace SmartParking

set_option maxRecDepth 100000

def scen10 : List (PlateStreamProcessor.PipelineResult × ℚ × ℚ) :=
  List.replicate 10 (.success [], 0, 0)

/-- **C2** (confirmed).  For every skip interval `v ≥ 1`, in both fixed and
dynamic admission modes, a `process_frame` call produces an envelope (i.e.
the frame is admitted) iff the 1-indexed arrival count — the respective frame
counter before the call, plus one, since the counter is incremented before
the modulo test — is a multiple of `v`; in particular with `v = 5`, ten
sequential `process_frame` calls admit only calls 5 and 10, yielding 2
envelopes from 10 inputs (in both modes). -/
theorem should_process_frame_admits_multiples (v : ℕ) (hv : 1 ≤ v)
    (st : PlateStreamProcessor.State) (result : PlateStreamProcessor.PipelineResult)
    (t dt : ℚ) :
    (st.use_dynamic_skipping = false → st.skip_frames = v →
      ((PlateStreamProcessor.process_frame st result t dt).1 ≠ none ↔
        v ∣ (st.frame_count + 1)))
    ∧ (st.use_dynamic_skipping = true → st.frame_skipper.skip_frames = v →
      ((PlateStreamProcessor.process_frame st result t dt).1 ≠ none ↔
        v ∣ (st.frame_skipper.frame_count + 1)))
    ∧ ((PlateStreamProcessor.run_plate
          (PlateStreamProcessor.init 5 10 false) scen10).1.map Option.isSome
        = [false, false, false, false, true, false, false, false, false, true])
    ∧ ((PlateStreamProcessor.run_plate
          (PlateStreamProcessor.init 5 10 true) scen10).1.map Option.isSome
        = [false, false, false, false, true, false, false, false, false, true])
    ∧ ((PlateStreamProcessor.run_plate
          (PlateStreamProcessor.init 5 10 false) scen10).1.countP
            (fun e => e.isSome) = 2)
    ∧ ((PlateStreamProcessor.run_plate
          (PlateStreamProcessor.init 5 10 true) scen10).1.countP
            (fun e => e.isSome) = 2) := by
  refine ⟨fun hmode hskip => ?_, fun hmode hskip => ?_,
    by with_unfolding_all exact of_decide_eq_true rfl,
    by with_unfolding_all exact of_decide_eq_true rfl,
    by with_unfolding_all exact of_decide_eq_true rfl,
    by with_unfolding_all exact of_decide_eq_true rfl⟩
  · by_cases hadm : (st.frame_count + 1) % v = 0
    · cases result <;>
        simp [PlateStreamProcessor.process_frame, PlateStreamProcessor.should_process_frame,
          hmode, hskip, hadm, Nat.dvd_iff_mod_eq_zero]
    · cases result <;>
        simp [PlateStreamProcessor.process_frame, PlateStreamProcessor.should_process_frame,
          hmode, hskip, hadm, Nat.dvd_iff_mod_eq_zero]
  · by_cases hadm : (st.frame_skipper.frame_count + 1) % v = 0
    · cases result <;>
        simp [PlateStreamProcessor.process_frame, PlateStreamProcessor.should_process_frame,
          DynamicFrameSkipper.should_process_frame, hmode, hskip, hadm,
          Nat.dvd_iff_mod_eq_zero]
    · cases result <;>
        simp [PlateStreamProcessor.process_frame, PlateStreamProcessor.should_process_frame,
          DynamicFrameSkipper.should_process_frame, hmode, hskip, hadm,
          Nat.dvd_iff_mod_eq_zero]

/-- Witness for `should_process_frame_admits_multiples`: in fixed mode with
`skip_frames = 5` and 4 frames already received, the 5th arrival is admitted
and produces an envelope. -/
theorem should_process_frame_admits_multiples_witness :
    (PlateStreamProcessor.process_frame
        { PlateStreamProcessor.init 5 10 false with frame_count := 4 }
        (.success []) 0 0).1 ≠ none :=
  ((should_process_frame_admits_multiples 5 (by decide)
      { PlateStreamProcessor.init 5 10 false with frame_count := 4 }
      (.success []) 0 0).1 rfl rfl).mpr (by decide)

end SmartParking
namespace SmartParking

/-- **C7** (amended).  When an admitted frame's detection call fails,
`process_frame` returns a failure envelope carrying `success=false` (the
`failureEnv` shape), the error text and the current frame number; the frame
counter still advances (fixed mode: by one; dynamic mode: to the skipper's
pre-increment count), but the processed counter does **not** advance, and all
post-processing is skipped: the dedup map is left unchanged by the failed
frame. -/
theorem process_frame_failure_spec (s : PlateStreamProcessor.State) (err : String)
    (t dt : ℚ)
    (h : (PlateStreamProcessor.process_frame s (.failure err) t dt).1.isSome = true) :
    (PlateStreamProcessor.process_frame s (.failure err) t dt).1 =
      some (.failureEnv err
        (PlateStreamProcessor.process_frame s (.failure err) t dt).2.frame_count (t + dt))
    ∧ (PlateStreamProcessor.process_frame s (.failure err) t dt).2.processed_count
        = s.processed_count
    ∧ (PlateStreamProcessor.process_frame s (.failure err) t dt).2.seen_plates
        = s.seen_plates
    ∧ (s.use_dynamic_skipping = false →
        (PlateStreamProcessor.process_frame s (.failure err) t dt).2.frame_count
          = s.frame_count + 1)
    ∧ (s.use_dynamic_skipping = true →
        (PlateStreamProcessor.process_frame s (.failure err) t dt).2.frame_count
          = s.frame_skipper.frame_count) := by
  by_cases hmode : s.use_dynamic_skipping = true
  · by_cases hadm :
        ((s.frame_skipper.frame_count + 1) % s.frame_skipper.skip_frames == 0) = true
    · refine ⟨?_, ?_, ?_, fun hc => absurd hmode (by rw [hc]; simp), fun _ => ?_⟩ <;>
        simp [PlateStreamProcessor.process_frame, PlateStreamProcessor.should_process_frame,
          DynamicFrameSkipper.should_process_frame, hmode, hadm]
    · exfalso
      rw [PlateStreamProcessor.process_frame] at h
      simp [PlateStreamProcessor.should_process_frame,
        DynamicFrameSkipper.should_process_frame, hmode, hadm] at h
  · have hmode' : s.use_dynamic_skipping = false := by
      cases hb : s.use_dynamic_skipping
      · rfl
      · exact absurd hb hmode
    by_cases hadm : ((s.frame_count + 1) % s.skip_frames == 0) = true
    · refine ⟨?_, ?_, ?_, fun _ => ?_, fun hc => absurd hc hmode⟩ <;>
        simp [PlateStreamProcessor.process_frame, PlateStreamProcessor.should_process_frame,
          hmode', hadm]
    · exfalso
      rw [PlateStreamProcessor.process_frame] at h
      simp [PlateStreamProcessor.should_process_frame, hmode', hadm] at h

/-- **C7** counterexample.  Fixed mode, `skip_frames = 1` (every frame
admitted), fresh session: the first frame fails, a failure envelope with
frame number 1 is returned — but `processed_count` stays 0, refuting "the
session's counters (frame counter and processed counter) still advance". -/
theorem process_frame_failure_processed_counterexample :
    (PlateStreamProcessor.process_frame (PlateStreamProcessor.init 1 10 false)
        (.failure "detector down") 0 0).1
      = some (.failureEnv "detector down" 1 0)
    ∧ (PlateStreamProcessor.process_frame (PlateStreamProcessor.init 1 10 false)
        (.failure "detector down") 0 0).2.frame_count = 1
    ∧ (PlateStreamProcessor.process_frame (PlateStreamProcessor.init 1 10 false)
        (.failure "detector down") 0 0).2.processed_count = 0 := by
  with_unfolding_all exact of_decide_eq_true rfl

/-- Witness for `process_frame_failure_spec`: the concrete failing frame of
the counterexample state leaves `processed_count` and the dedup map
untouched while the frame counter advances to 1. -/
theorem process_frame_failure_spec_witness :
    (PlateStreamProcessor.process_frame (PlateStreamProcessor.init 1 10 false)
        (.failure "e") 0 0).2.processed_count
      = (PlateStreamProcessor.init 1 10 false).processed_count
    ∧ (PlateStreamProcessor.process_frame (PlateStreamProcessor.init 1 10 false)
        (.failure "e") 0 0).2.frame_count
      = (PlateStreamProcessor.init 1 10 false).frame_count + 1 :=
  ⟨(process_frame_failure_spec (PlateStreamProcessor.init 1 10 false) "e" 0 0
      (by with_unfolding_all exact of_decide_eq_true rfl)).2.1,
    (process_frame_failure_spec (PlateStreamProcessor.init 1 10 false) "e" 0 0
      (by with_unfolding_all exact of_decide_eq_true rfl)).2.2.2.1 rfl⟩

end SmartParking
namespace SmartParking

/-- `cleanup_old_plates` never changes the session's frame counter. -/
theorem cleanup_old_plates_frame_count (s : PlateStreamProcessor.State) (now : ℚ) :
    (PlateStreamProcessor.cleanup_old_plates s now).frame_count = s.frame_count := by
  rw [cleanup_old_plates_fields]

/-- `cleanup_old_plates` never changes the embedded skipper state. -/
theorem cleanup_old_plates_frame_skipper (s : PlateStreamProcessor.State) (now : ℚ) :
    (PlateStreamProcessor.cleanup_old_plates s now).frame_skipper = s.frame_skipper := by
  rw [cleanup_old_plates_fields]

def c10S : PlateStreamProcessor.State :=
  { PlateStreamProcessor.init 3 10 true with
      frame_skipper := { DynamicFrameSkipper.init 3 1 30 10 with frame_count := 50 }
      seen_plates := [("OLD", 0)] }

def c10T : PlateStreamProcessor.State :=
  { PlateStreamProcessor.init 4 10 true with
      frame_skipper := { DynamicFrameSkipper.init 4 1 30 10 with frame_count := 51 }
      seen_plates := [("OLD", 0)] }

/-- **C10** (confirmed).  In dynamic mode `process_frame` copies the
skipper's counter into the session's `frame_count` *before* the admission
check increments it: with `m` frames received so far (skipper counter `m`),
the call is arrival `m + 1`, yet the session's counter — hence the
`frame_number` reported in every envelope, and the value fed to the
every-50-frames eviction test — is `m`, the received count minus one, while
in fixed mode it is exactly `m + 1`.  The closed conjuncts demonstrate the
eviction consequence: with 50 frames already received (arrival 51), a stale
entry *is* evicted (the test reads `50 % 50 = 0`); with 51 received (arrival
52) it is not. -/
theorem process_frame_frame_number_spec (s : PlateStreamProcessor.State)
    (result : PlateStreamProcessor.PipelineResult) (t dt : ℚ) (m : ℕ) :
    (s.use_dynamic_skipping = true → s.frame_skipper.frame_count = m →
      (PlateStreamProcessor.process_frame s result t dt).2.frame_count = m
      ∧ (PlateStreamProcessor.process_frame s result t dt).2.frame_skipper.frame_count
          = m + 1
      ∧ (∀ e, (PlateStreamProcessor.process_frame s result t dt).1 = some e →
          e.frameNumber = m))
    ∧ (s.use_dynamic_skipping = false → s.frame_count = m →
      (PlateStreamProcessor.process_frame s result t dt).2.frame_count = m + 1
      ∧ (∀ e, (PlateStreamProcessor.process_frame s result t dt).1 = some e →
          e.frameNumber = m + 1))
    ∧ ((PlateStreamProcessor.process_frame c10S (.success []) 1000 0).2.seen_plates = [])
    ∧ ((PlateStreamProcessor.process_frame c10S (.success []) 1000 0).1.map
        PlateStreamProcessor.Envelope.frameNumber = some 50)
    ∧ ((PlateStreamProcessor.process_frame c10T (.success []) 1000 0).2.seen_plates
        = [("OLD", 0)])
    ∧ ((PlateStreamProcessor.process_frame c10T (.success []) 1000 0).1.isSome = true) := by
  refine ⟨fun hmode hm => ?_, fun hmode hm => ?_,
    by with_unfolding_all exact of_decide_eq_true rfl,
    by with_unfolding_all exact of_decide_eq_true rfl,
    by with_unfolding_all exact of_decide_eq_true rfl,
    by with_unfolding_all exact of_decide_eq_true rfl⟩
  · by_cases hadm : ((m + 1) % s.frame_skipper.skip_frames == 0) = true
    · cases result with
      | failure err =>
        refine ⟨?_, ?_, fun e he => ?_⟩
        · simp [PlateStreamProcessor.process_frame, PlateStreamProcessor.should_process_frame,
            DynamicFrameSkipper.should_process_frame, hmode, hm, hadm]
        · simp [PlateStreamProcessor.process_frame, PlateStreamProcessor.should_process_frame,
            DynamicFrameSkipper.should_process_frame, hmode, hm, hadm,
            record_processing_time_frame_count]
        · simp [PlateStreamProcessor.process_frame, PlateStreamProcessor.should_process_frame,
            DynamicFrameSkipper.should_process_frame, hmode, hm, hadm] at he
          rw [← he]
          rfl
      | success plates =>
        refine ⟨?_, ?_, fun e he => ?_⟩
        · simp [PlateStreamProcessor.process_frame, PlateStreamProcessor.should_process_frame,
            DynamicFrameSkipper.should_process_frame, hmode, hm, hadm,
            apply_ite PlateStreamProcessor.State.frame_count,
            markPlates_frame_count, cleanup_old_plates_frame_count]
        · simp [PlateStreamProcessor.process_frame, PlateStreamProcessor.should_process_frame,
            DynamicFrameSkipper.should_process_frame, hmode, hm, hadm,
            apply_ite PlateStreamProcessor.State.frame_skipper,
            markPlates_frame_skipper, cleanup_old_plates_frame_skipper,
            record_processing_time_frame_count]
        · simp [PlateStreamProcessor.process_frame, PlateStreamProcessor.should_process_frame,
            DynamicFrameSkipper.should_process_frame, hmode, hm, hadm,
            apply_ite PlateStreamProcessor.State.frame_count,
            markPlates_frame_count, cleanup_old_plates_frame_count] at he
          rw [← he]
          rfl
    · refine ⟨?_, ?_, fun e he => ?_⟩
      · simp [PlateStreamProcessor.process_frame, PlateStreamProcessor.should_process_frame,
          DynamicFrameSkipper.should_process_frame, hmode, hm, hadm]
      · simp [PlateStreamProcessor.process_frame, PlateStreamProcessor.should_process_frame,
          DynamicFrameSkipper.should_process_frame, hmode, hm, hadm]
      · simp [PlateStreamProcessor.process_frame, PlateStreamProcessor.should_process_frame,
          DynamicFrameSkipper.should_process_frame, hmode, hm, hadm] at he
  · have hmode' : s.use_dynamic_skipping = false := hmode
    by_cases hadm : ((m + 1) % s.skip_frames == 0) = true
    · cases result with
      | failure err =>
        refine ⟨?_, fun e he => ?_⟩
        · simp [PlateStreamProcessor.process_frame, PlateStreamProcessor.should_process_frame,
            hmode', hm, hadm]
        · simp [PlateStreamProcessor.process_frame, PlateStreamProcessor.should_process_frame,
            hmode', hm, hadm] at he
          rw [← he]
          rfl
      | success plates =>
        refine ⟨?_, fun e he => ?_⟩
        · simp [PlateStreamProcessor.process_frame, PlateStreamProcessor.should_process_frame,
            hmode', hm, hadm, apply_ite PlateStreamProcessor.State.frame_count,
            markPlates_frame_count, cleanup_old_plates_frame_count]
        · simp [PlateStreamProcessor.process_frame, PlateStreamProcessor.should_process_frame,
            hmode', hm, hadm, apply_ite PlateStreamProcessor.State.frame_count,
            markPlates_frame_count, cleanup_old_plates_frame_count] at he
          rw [← he]
          rfl
    · refine ⟨?_, fun e he => ?_⟩
      · simp [PlateStreamProcessor.process_frame, PlateStreamProcessor.should_process_frame,
          hmode', hm, hadm]
      · simp [PlateStreamProcessor.process_frame, PlateStreamProcessor.should_process_frame,
          hmode', hm, hadm] at he

/-- Witness for `process_frame_frame_number_spec`: a fresh dynamic-mode
session (0 frames received) reports `frame_count = 0` after its first
`process_frame` call while the skipper's counter moves to 1. -/
theorem process_frame_frame_number_spec_witness :
    (PlateStreamProcessor.process_frame (PlateStreamProcessor.init 5 10 true)
        (.success []) 0 0).2.frame_count = 0
    ∧ (PlateStreamProcessor.process_frame (PlateStreamProcessor.init 5 10 true)
        (.success []) 0 0).2.frame_skipper.frame_count = 0 + 1 :=
  ⟨((process_frame_frame_number_spec (PlateStreamProcessor.init 5 10 true)
      (.success []) 0 0 0).1 rfl rfl).1,
    ((process_frame_frame_number_spec (PlateStreamProcessor.init 5 10 true)
      (.success []) 0 0 0).1 rfl rfl).2.1⟩

end SmartParking
namespace SmartParking

/-- **C6** (confirmed).  After any run of `cleanup_old_plates`: every entry
whose `last_seen` stamp is more than `2 * window` seconds older than the
current time has been removed (every surviving entry is within `2 * window`);
the map holds at most `max_tracked_plates` entries (default 100, as set by
`__init__`); every surviving entry comes from the original map; when the map
was within the cap, no still-fresh entry is dropped; and the retained entries
are exactly the most-recently-seen ones: any fresh entry that was dropped by
the size cap has a stamp no newer than any retained entry (so inserting more
than `max_tracked` distinct identities in increasing-timestamp order and
cleaning leaves size ≤ `max_tracked`, retaining the most recent). -/
theorem cleanup_old_plates_spec (s : PlateStreamProcessor.State) (now : ℚ) :
    (∀ k : ℕ, ∀ w : ℚ, ∀ d : Bool,
        (PlateStreamProcessor.init k w d).max_tracked_plates = 100)
    ∧ (∀ p ∈ (PlateStreamProcessor.cleanup_old_plates s now).seen_plates,
        now - p.2 ≤ s.dedup_window * 2)
    ∧ (PlateStreamProcessor.cleanup_old_plates s now).seen_plates.length
        ≤ s.max_tracked_plates
    ∧ (∀ p ∈ (PlateStreamProcessor.cleanup_old_plates s now).seen_plates,
        p ∈ s.seen_plates)
    ∧ (∀ b ∈ s.seen_plates, now - b.2 ≤ s.dedup_window * 2 →
        s.seen_plates.length ≤ s.max_tracked_plates →
        b ∈ (PlateStreamProcessor.cleanup_old_plates s now).seen_plates)
    ∧ (∀ a ∈ (PlateStreamProcessor.cleanup_old_plates s now).seen_plates,
        ∀ b ∈ s.seen_plates, now - b.2 ≤ s.dedup_window * 2 →
        b ∉ (PlateStreamProcessor.cleanup_old_plates s now).seen_plates →
        b.2 ≤ a.2) := by
  by_cases hlen : s.max_tracked_plates <
      (s.seen_plates.filter (fun p => decide (now - p.2 ≤ s.dedup_window * 2))).length
  · have hres : (PlateStreamProcessor.cleanup_old_plates s now).seen_plates =
        (List.insertionSort PlateStreamProcessor.stampGE
          (s.seen_plates.filter
            (fun p => decide (now - p.2 ≤ s.dedup_window * 2)))).take
          s.max_tracked_plates := by
      simp only [PlateStreamProcessor.cleanup_old_plates]
      rw [if_pos hlen]
    have hsorted : List.Pairwise PlateStreamProcessor.stampGE
        (List.insertionSort PlateStreamProcessor.stampGE
          (s.seen_plates.filter
            (fun p => decide (now - p.2 ≤ s.dedup_window * 2)))) :=
      List.sorted_insertionSort PlateStreamProcessor.stampGE _
    have hresfilter : ∀ p ∈ (PlateStreamProcessor.cleanup_old_plates s now).seen_plates,
        p ∈ s.seen_plates.filter (fun p => decide (now - p.2 ≤ s.dedup_window * 2)) := by
      intro p hp
      rw [hres] at hp
      exact ((List.perm_insertionSort _ _).mem_iff).mp (List.take_subset _ _ hp)
    refine ⟨fun k w d => rfl, ?_, ?_, ?_, ?_, ?_⟩
    · intro p hp
      exact of_decide_eq_true (List.mem_filter.mp (hresfilter p hp)).2
    · rw [hres, List.length_take]
      exact min_le_left _ _
    · intro p hp
      exact List.mem_of_mem_filter (hresfilter p hp)
    · intro b _ _ hsmall
      exact absurd hlen
        (not_lt.mpr (le_trans (List.length_filter_le _ _) hsmall))
    · intro a ha b hb hrec hnot
      have hbs : b ∈ List.insertionSort PlateStreamProcessor.stampGE
          (s.seen_plates.filter
            (fun p => decide (now - p.2 ≤ s.dedup_window * 2))) :=
        ((List.perm_insertionSort _ _).mem_iff).mpr
          (List.mem_filter.mpr ⟨hb, decide_eq_true hrec⟩)
      rw [← List.take_append_drop s.max_tracked_plates
        (List.insertionSort PlateStreamProcessor.stampGE
          (s.seen_plates.filter
            (fun p => decide (now - p.2 ≤ s.dedup_window * 2))))] at hbs
      rcases List.mem_append.mp hbs with hcase | hcase
      · rw [hres] at hnot
        exact absurd hcase hnot
      · rw [hres] at ha
        exact hsorted.rel_of_mem_take_of_mem_drop ha hcase
  · have hres : (PlateStreamProcessor.cleanup_old_plates s now).seen_plates =
        s.seen_plates.filter (fun p => decide (now - p.2 ≤ s.dedup_window * 2)) := by
      simp only [PlateStreamProcessor.cleanup_old_plates]
      rw [if_neg hlen]
    refine ⟨fun k w d => rfl, ?_, ?_, ?_, ?_, ?_⟩
    · intro p hp
      rw [hres] at hp
      exact of_decide_eq_true (List.mem_filter.mp hp).2
    · rw [hres]
      exact not_lt.mp hlen
    · intro p hp
      rw [hres] at hp
      exact List.mem_of_mem_filter hp
    · intro b hb hrec _
      rw [hres]
      exact List.mem_filter.mpr ⟨hb, decide_eq_true hrec⟩
    · intro a _ b hb hrec hnot
      rw [hres] at hnot
      exact absurd (List.mem_filter.mpr ⟨hb, decide_eq_true hrec⟩) hnot

def w6S : PlateStreamProcessor.State :=
  { PlateStreamProcessor.init 5 10 false with
      seen_plates := [("A", 0), ("B", 5), ("C", 9)]
      max_tracked_plates := 2 }

/-- Witness for `cleanup_old_plates_spec`: three fresh entries against a cap
of 2 at time 10 — the retained entry `("C", 9)` dominates the dropped entry
`("A", 0)`. -/
theorem cleanup_old_plates_spec_witness :
    ((0 : ℚ) ≤ 9) ∧ (("A", (0 : ℚ)) ∈ w6S.seen_plates) :=
  ⟨(cleanup_old_plates_spec w6S 10).2.2.2.2.2 ("C", 9)
      (by with_unfolding_all exact of_decide_eq_true rfl) ("A", 0)
      (by with_unfolding_all exact of_decide_eq_true rfl)
      (by with_unfolding_all exact of_decide_eq_true rfl)
      (by with_unfolding_all exact of_decide_eq_true rfl),
    by with_unfolding_all exact of_decide_eq_true rfl⟩

end SmartParking
namespace SmartParking

set_option maxRecDepth 100000

/-- One raw frame that cannot fire the periodic adjustment (fewer than
`adjustment_interval` raw frames since the last restamp): no recomputation,
the raw counter advances by one, and the adjustment bookkeeping is
untouched. -/
theorem raw_frame_step_no_fire (s : DynamicFrameSkipper.State) (lat : ℚ)
    (hle : s.last_adjustment_frame ≤ s.frame_count)
    (h : s.frame_count + 1 < s.last_adjustment_frame + s.adjustment_interval) :
    (DynamicFrameSkipper.raw_frame_step s lat).1.1 = false
    ∧ (DynamicFrameSkipper.raw_frame_step s lat).2.frame_count = s.frame_count + 1
    ∧ (DynamicFrameSkipper.raw_frame_step s lat).2.last_adjustment_frame
        = s.last_adjustment_frame
    ∧ (DynamicFrameSkipper.raw_frame_step s lat).2.adjustment_interval
        = s.adjustment_interval := by
  have hdue : ¬ (s.adjustment_interval ≤ s.frame_count + 1 - s.last_adjustment_frame) := by
    omega
  by_cases hadm : ((s.frame_count + 1) % s.skip_frames == 0) = true
  · refine ⟨?_, ?_, ?_, ?_⟩ <;>
      simp [DynamicFrameSkipper.raw_frame_step, DynamicFrameSkipper.should_process_frame,
        DynamicFrameSkipper.record_recomputes, DynamicFrameSkipper.record_processing_time,
        hadm, hdue]
  · refine ⟨?_, ?_, ?_, ?_⟩ <;>
      simp [DynamicFrameSkipper.raw_frame_step, DynamicFrameSkipper.should_process_frame,
        hadm]

/-- As long as fewer than `adjustment_interval` raw frames have arrived since
the last restamp of `last_adjustment_frame`, no step of a raw-frame run
recomputes the skip interval. -/
theorem run_raw_no_recompute (lats : List ℚ) :
    ∀ (s : DynamicFrameSkipper.State) (i : ℕ),
      s.last_adjustment_frame ≤ s.frame_count →
      s.frame_count + i + 1 < s.last_adjustment_frame + s.adjustment_interval →
      ((DynamicFrameSkipper.run_raw s lats).1.getD i (false, false)).1 = false := by
  induction lats with
  | nil =>
    intro s i _ _
    simp [DynamicFrameSkipper.run_raw]
  | cons lat rest ih =>
    intro s i hle h
    have hstep := raw_frame_step_no_fire s lat hle (by omega)
    cases i with
    | zero =>
      simp [DynamicFrameSkipper.run_raw, hstep.1]
    | succ j =>
      have hrec := ih (DynamicFrameSkipper.raw_frame_step s lat).2 j
        (by rw [hstep.2.1, hstep.2.2.1]; omega)
        (by rw [hstep.2.1, hstep.2.2.1, hstep.2.2.2]; omega)
      simpa [DynamicFrameSkipper.run_raw] using hrec

/-- **C8** (amended).  The admission controller recomputes the skip interval
only when at least 5 latency samples are present, and any recomputation
restamps `last_adjustment_frame` to the current *raw* frame counter; from a
freshly restamped state, the next `adjustment_interval - 1` raw frames can
never recompute.  Hence between two consecutive recomputations at least
`adjustment_interval` (default 20) **raw received** frames elapse — not 20
admitted frames: with skip interval `v` only about `20 / v` admitted frames
separate them. -/
theorem adjustment_cadence_spec :
    (∀ (s : DynamicFrameSkipper.State) (lat : ℚ),
      (DynamicFrameSkipper.raw_frame_step s lat).1.1 = true →
        5 ≤ (DynamicFrameSkipper.dequeAppend s.processing_times lat).length
        ∧ (DynamicFrameSkipper.raw_frame_step s lat).2.last_adjustment_frame
            = (DynamicFrameSkipper.raw_frame_step s lat).2.frame_count)
    ∧ (∀ (s : DynamicFrameSkipper.State) (lats : List ℚ) (i : ℕ),
        s.last_adjustment_frame = s.frame_count →
        i + 1 < s.adjustment_interval →
        ((DynamicFrameSkipper.run_raw s lats).1.getD i (false, false)).1 = false) := by
  constructor
  · intro s lat hev
    by_cases hadm : ((s.frame_count + 1) % s.skip_frames == 0) = true
    · rw [DynamicFrameSkipper.raw_frame_step] at hev
      simp only [DynamicFrameSkipper.should_process_frame, hadm, if_true,
        DynamicFrameSkipper.record_recomputes, Bool.and_eq_true, decide_eq_true_eq] at hev
      have hdue := hev.1
      have hlen := hev.2
      constructor
      · exact hlen
      · by_cases hdue' : s.adjustment_interval ≤ s.frame_count + 1 - s.last_adjustment_frame
        · simp [DynamicFrameSkipper.raw_frame_step, DynamicFrameSkipper.should_process_frame,
            DynamicFrameSkipper.record_processing_time, hadm, hdue']
        · exact absurd hdue hdue'
    · rw [DynamicFrameSkipper.raw_frame_step] at hev
      simp only [DynamicFrameSkipper.should_process_frame, hadm, if_false] at hev
      simp at hev
  · intro s lats i heq hlt
    exact run_raw_no_recompute lats s i (le_of_eq heq) (by omega)

def c8Run : List (Bool × Bool) × DynamicFrameSkipper.State :=
  DynamicFrameSkipper.run_raw (DynamicFrameSkipper.init 5 1 30 10)
    (List.replicate 60 (2 / 5 : ℚ))

/-- **C8** counterexample.  Skipper started at skip interval 5 (which a
constant 0.4-second latency keeps unchanged — it sits in the hysteresis
band), fed 60 raw frames: the skip interval is recomputed at raw frames 40
and 60 (indices 39 and 59) and nowhere in between, yet only 4 admitted
(processed) frames — raw frames 45, 50, 55, 60 — separate these two
consecutive recomputations, refuting "between any two consecutive
recomputations, at least 20 admitted (processed) frames elapse". -/
theorem adjustment_cadence_counterexample :
    ((c8Run.1.getD 39 (false, false)).1 = true)
    ∧ ((c8Run.1.getD 59 (false, false)).1 = true)
    ∧ (((c8Run.1.drop 40).take 19).countP (fun p => p.1) = 0)
    ∧ (((c8Run.1.drop 40).take 20).countP (fun p => p.2) = 4)
    ∧ (c8Run.2.skip_frames = 5)
    ∧ (4 < 20) := by
  with_unfolding_all exact of_decide_eq_true rfl

def w8S : DynamicFrameSkipper.State :=
  { DynamicFrameSkipper.init 5 1 30 10 with
      frame_count := 39
      last_adjustment_frame := 20
      processing_times := List.replicate 8 (2 / 5 : ℚ) }

/-- Witness for `adjustment_cadence_spec`: raw frame 40 (admitted, 20 raw
frames after the last restamp, 9 samples in the ring) recomputes and
restamps `last_adjustment_frame` to the raw frame counter. -/
theorem adjustment_cadence_spec_witness :
    5 ≤ (DynamicFrameSkipper.dequeAppend w8S.processing_times (2 / 5)).length
    ∧ (DynamicFrameSkipper.raw_frame_step w8S (2 / 5)).2.last_adjustment_frame
        = (DynamicFrameSkipper.raw_frame_step w8S (2 / 5)).2.frame_count :=
  adjustment_cadence_spec.1 w8S (2 / 5)
    (by with_unfolding_all exact of_decide_eq_true rfl)

end SmartParking
